import Mathlib

/-!
Verification development for the Stellar discovery/triage engine
(backend/app.py). The Python functions `_assign_roles`,
`_compute_priority_score` and the `discovery` endpoint pipeline
(query-parameter parsing, filtering, sorting, pagination, summary
aggregation) are shallowly embedded below; Python floats are modelled
as rationals, Python `None` as `Option`, and Python exceptions as
`Option`-valued results.
-/

namespace Stellar

/-- RoleAssignment models a role record produced by `_assign_roles`
(fields `role`, `priority`, `instrument`; the free-text fields `reason`,
`task`, `deliverable`, `timeline` carry no decision content and are
omitted). -/
structure RoleAssignment where
  role : String
  priority : String
  instrument : String
deriving DecidableEq

/-- Params models the per-candidate feature dict `params`; the
orchestrator only enriches rows with every feature present
(`complete = cands.dropna(subset=features)`), so `params.get(f, d)`
in the source always returns the stored field. -/
structure Params where
  koi_period : ℚ
  koi_impact : ℚ
  koi_duration : ℚ
  koi_depth : ℚ
  koi_model_snr : ℚ
  koi_steff : ℚ
  koi_slogg : ℚ
  koi_srad : ℚ
  koi_smass : ℚ
  koi_smet : ℚ
deriving DecidableEq

/-- Habitable-zone flag as computed at the top of `_assign_roles`
(app.py lines 300-303): requires presence, positivity, then the band
check `0.25 <= insol <= 1.75`. -/
def in_hz_of (insol : Option ℚ) : Bool :=
  match insol with
  | none => false
  | some i => if 0 < i then decide ((1/4 : ℚ) ≤ i ∧ i ≤ (7/4 : ℚ)) else false

/-- Habitable-zone flag as recomputed in the `discovery` loop for the
enriched record (app.py lines 577-579): presence then the band check,
without the separate positivity guard. -/
def discovery_in_hz (insol : Option ℚ) : Bool :=
  match insol with
  | none => false
  | some i => decide ((1/4 : ℚ) ≤ i ∧ i ≤ (7/4 : ℚ))

/-- Role Assignment Engine `_assign_roles` (app.py lines 293-462):
seven independent rules, each appending at most one role record, in
source order. -/
def assign_roles (conf_prob fp_prob radius : ℚ) (params : Params)
    (koi_count insol : Option ℚ) (has_err_data : Bool) : List RoleAssignment :=
  let in_hz := in_hz_of insol
  let depth := params.koi_depth
  let snr := params.koi_model_snr
  let srad := params.koi_srad
  let steff := params.koi_steff
  let slogg := params.koi_slogg
  let r1 : List RoleAssignment :=
    if (13/20 : ℚ) ≤ conf_prob then
      [{ role := "Radial Velocity Observer",
         priority := if in_hz ∧ radius < 4 then "HIGH"
                     else if (4/5 : ℚ) < conf_prob then "MEDIUM" else "STANDARD",
         instrument := if radius < 2 then "ESPRESSO"
                       else if radius < 6 then "HARPS-N" else "HIRES" }]
    else []
  let r2 : List RoleAssignment :=
    if ((2/5 : ℚ) ≤ conf_prob ∧ conf_prob ≤ (17/20 : ℚ)) ∨ snr < 15 ∨ depth < 100 then
      [{ role := "Transit Photometrist",
         priority := if snr < 10 then "HIGH"
                     else if conf_prob < (13/20 : ℚ) then "MEDIUM" else "STANDARD",
         instrument := if depth < 200 then "CHEOPS" else "TESS Extended" }]
    else []
  let r3 : List RoleAssignment :=
    if (1/4 : ℚ) ≤ fp_prob then
      [{ role := "Centroid Analyst",
         priority := if (1/2 : ℚ) ≤ fp_prob then "HIGH" else "MEDIUM",
         instrument := "Kepler TPF / Gaia DR3" }]
    else []
  let r4 : List RoleAssignment :=
    if (7/20 : ℚ) ≤ conf_prob ∧ conf_prob ≤ (4/5 : ℚ) then
      [{ role := "Statistical Validator",
         priority := if (9/20 : ℚ) ≤ conf_prob ∧ conf_prob ≤ (13/20 : ℚ) then "HIGH" else "MEDIUM",
         instrument := "VESPA / BLENDER" }]
    else []
  let r5 : List RoleAssignment :=
    if (3/4 : ℚ) ≤ conf_prob ∧ (3/2 : ℚ) ≤ radius ∧ radius ≤ 10 ∧
        (in_hz ∨ (steff < 4500 ∧ srad < (7/10 : ℚ))) then
      [{ role := "Atmospheric Scientist",
         priority := if in_hz ∧ radius < 4 then "HIGH" else "MEDIUM",
         instrument := "JWST NIRSpec / Ariel" }]
    else []
  let r6 : List RoleAssignment :=
    if (3 < srad ∨ slogg < (7/2 : ℚ) ∨ 7500 < steff) ∨ ¬has_err_data then
      [{ role := "Stellar Characterization",
         priority := if 5 < srad ∨ slogg < 3 then "HIGH" else "MEDIUM",
         instrument := "High-res spectrograph + isochrone fitting" }]
    else []
  let r7 : List RoleAssignment :=
    match koi_count with
    | some c =>
      if 1 < c then
        [{ role := "Dynamical Analyst",
           priority := if 3 ≤ c then "HIGH" else "MEDIUM",
           instrument := "Kepler Long-Cadence + N-body sim" }]
      else []
    | none => []
  r1 ++ r2 ++ r3 ++ r4 ++ r5 ++ r6 ++ r7

/-- Confidence component of `_compute_priority_score`
(app.py lines 468-476). -/
def conf_component (conf_prob : ℚ) : ℚ :=
  if (3/5 : ℚ) ≤ conf_prob ∧ conf_prob ≤ (9/10 : ℚ) then 30
  else if (9/10 : ℚ) < conf_prob then 20
  else if (2/5 : ℚ) ≤ conf_prob ∧ conf_prob < (3/5 : ℚ) then 25
  else 5

/-- Habitable-zone bonus component of `_compute_priority_score`
(app.py lines 479-482). -/
def hz_component (insol : Option ℚ) : ℚ :=
  match insol with
  | none => 0
  | some i =>
    if (1/4 : ℚ) ≤ i ∧ i ≤ (7/4 : ℚ) then 25
    else if (1/10 : ℚ) ≤ i ∧ i ≤ 3 then 10
    else 0

/-- Small-planet bonus component of `_compute_priority_score`
(app.py lines 485-492). -/
def size_component (radius : ℚ) : ℚ :=
  if radius < (3/2 : ℚ) then 20
  else if radius < (5/2 : ℚ) then 15
  else if radius < 4 then 10
  else if radius < 8 then 5
  else 0

/-- Multi-planet bonus component of `_compute_priority_score`
(app.py lines 495-496). -/
def mult_component (koi_count : Option ℚ) : ℚ :=
  match koi_count with
  | none => 0
  | some c => if 1 < c then 10 + min 5 ((c - 1) * 2) else 0

/-- Signal-to-noise bonus component of `_compute_priority_score`
(app.py lines 499-502). -/
def snr_component (snr : ℚ) : ℚ :=
  if 20 < snr then 10 else if 10 < snr then 5 else 0

/-- Composite priority score `_compute_priority_score`
(app.py lines 465-504); the running accumulation is the sum of the
five components, clamped by `min(100, score)`. -/
def compute_priority_score (conf_prob radius : ℚ) (insol koi_count : Option ℚ)
    (snr : ℚ) : ℚ :=
  min 100 (conf_component conf_prob + hz_component insol + size_component radius
    + mult_component koi_count + snr_component snr)

/-- Planet size classification chain from the `discovery` loop
(app.py lines 582-593), applied to the already-clamped radius. -/
def planet_class (radius : ℚ) : String :=
  if radius < 1 then "Sub-Earth"
  else if radius < 2 then "Earth-size"
  else if radius < 4 then "Super-Earth"
  else if radius < 8 then "Neptune-size"
  else if radius < 15 then "Jupiter-size"
  else "Super-Jupiter"

/-- Radius clamp applied to the raw regressor output before any use
(app.py line 564: `radius = max(0.0, float(reg_preds[i]))`). -/
def clamp_radius (raw : ℚ) : ℚ := max 0 raw

/-- Modelled from the spec wording of `sizeClass` (section 4.1), with
each band written as an explicit half-open interval, for comparison
against the source chain in `planet_class`. -/
def sizeClass_spec (r : ℚ) : String :=
  if r < 1 then "Sub-Earth"
  else if 1 ≤ r ∧ r < 2 then "Earth-size"
  else if 2 ≤ r ∧ r < 4 then "Super-Earth"
  else if 4 ≤ r ∧ r < 8 then "Neptune-size"
  else if 8 ≤ r ∧ r < 15 then "Jupiter-size"
  else "Super-Jupiter"

/-- Cand models one enriched candidate record built by the `discovery`
loop (app.py lines 595-615), restricted to the fields the
filter/sort/paginate/summary stages read. -/
structure Cand where
  koi_period : ℚ
  confirmation_probability : ℚ
  predicted_radius : ℚ
  in_habitable_zone : Bool
  priority_score : ℚ
  role_assignments : List RoleAssignment
  num_roles : Nat
deriving DecidableEq

/-- Value of a nonempty all-digit character run, the digit part
accepted by the Python `int` constructor. -/
def digits_value (cs : List Char) : Option Nat :=
  if cs = [] then none
  else if cs.all (·.isDigit) then
    some (cs.foldl (fun acc c => acc * 10 + (c.toNat - 48)) 0)
  else none

/-- Sign handling of the Python builtin `int` on an already-stripped
character run. -/
def py_int_core (cs : List Char) : Option Int :=
  match cs with
  | '+' :: rest => (digits_value rest).map (fun n => (n : Int))
  | '-' :: rest => (digits_value rest).map (fun n => -(n : Int))
  | _ => (digits_value cs).map (fun n => (n : Int))

/-- Model of the Python builtin `int(s)` on a string: surrounding
whitespace is stripped, an optional sign is followed by at least one
digit; any other shape raises `ValueError`, modelled as `none`. -/
def pyInt (s : String) : Option Int :=
  py_int_core (((s.data.dropWhile Char.isWhitespace).reverse.dropWhile Char.isWhitespace).reverse)

/-- QueryArgs models `request.args` for the discovery endpoint: each
query parameter is either absent or an arbitrary string. -/
structure QueryArgs where
  page : Option String
  per_page : Option String
  role : Option String
  priority : Option String
  hz_only : Option String
  sort : Option String
  dir : Option String
  min_score : Option String

/-- DiscoveryParams holds the parsed query parameters of the
`discovery` endpoint (app.py lines 529-536). -/
structure DiscoveryParams where
  page : Int
  per_page : Int
  role_filter : String
  priority_filter : String
  hz_only : Bool
  sort_by : String
  sort_dir : String
  min_score : Int
deriving DecidableEq

/-- Model of `int(request.args.get(name, default))`: an absent
parameter yields the integer default, a present one goes through the
`int` constructor and may raise. -/
def int_arg (arg : Option String) (default : Int) : Option Int :=
  match arg with
  | none => some default
  | some s => pyInt s

/-- Query-parameter processing of the `discovery` endpoint (app.py
lines 529-536). The three `int(...)` conversions can raise
`ValueError`, which nothing in the endpoint catches, so a parse
failure aborts the whole request (`none`); the string-valued
parameters are taken as-is with defaults. -/
def parseDiscoveryParams (q : QueryArgs) : Option DiscoveryParams :=
  match int_arg q.page 1, int_arg q.per_page 20, int_arg q.min_score 0 with
  | some p, some pp, some ms =>
    some { page := p, per_page := pp,
           role_filter := q.role.getD "",
           priority_filter := q.priority.getD "",
           hz_only := q.hz_only.getD "false" == "true",
           sort_by := q.sort.getD "priority_score",
           sort_dir := q.dir.getD "desc",
           min_score := ms }
  | _, _, _ => none

/-- Sort key selection, modelling `sort_key_map.get(sort_by,
sort_key_map["priority_score"])` (app.py lines 630-637): the five
recognized keys, any other string falling back to the priority score. -/
def sort_key (sort_by : String) (c : Cand) : ℚ :=
  if sort_by = "priority_score" then c.priority_score
  else if sort_by = "conf_prob" then c.confirmation_probability
  else if sort_by = "radius" then c.predicted_radius
  else if sort_by = "num_roles" then (c.num_roles : ℚ)
  else if sort_by = "period" then c.koi_period
  else c.priority_score

/-- Sorting step `results.sort(key=sort_fn, reverse=(sort_dir ==
"desc"))` (app.py line 638). Python list.sort is stable; with
`reverse=True` it is a stable descending sort, modelled by a stable
merge sort under the reversed key comparison. -/
def sortResults (results : List Cand) (sort_by sort_dir : String) : List Cand :=
  if sort_dir = "desc" then
    results.mergeSort (fun a b => decide (sort_key sort_by b ≤ sort_key sort_by a))
  else
    results.mergeSort (fun a b => decide (sort_key sort_by a ≤ sort_key sort_by b))

/-- Minimum-score filter (app.py lines 626-627): applied only when
`min_score > 0`, keeping candidates with score at least the
threshold. -/
def min_score_filter (results : List Cand) (ms : Int) : List Cand :=
  if 0 < ms then results.filter (fun r => decide ((ms : ℚ) ≤ r.priority_score)) else results

/-- Normalization of one Python slice index against a list length:
negative indices count from the end and clamp at 0, nonnegative ones
clamp at the length. -/
def pyIndex (len : Nat) (i : Int) : Nat :=
  if i < 0 then ((len : Int) + i).toNat else min i.toNat len

/-- Model of the Python list slice `l[start:stop]`. -/
def pySlice {α : Type} (l : List α) (start stop : Int) : List α :=
  (l.drop (pyIndex l.length start)).take (pyIndex l.length stop - pyIndex l.length start)

/-- Pagination step of the `discovery` endpoint (app.py lines
660-661): `start = (page - 1) * per_page;
results[start:start + per_page]`. -/
def paginate {α : Type} (l : List α) (page per_page : Int) : List α :=
  pySlice l ((page - 1) * per_page) ((page - 1) * per_page + per_page)

/-- Reported page count `(total_filtered + per_page - 1) // per_page`
(app.py line 669), with Python floor division. -/
def pages_count (total : Nat) (per_page : Int) : Int :=
  Int.fdiv ((total : Int) + per_page - 1) per_page

/-- Model of one `dict.get(role, 0) + 1` update on an
insertion-ordered Python dict, represented as an association list. -/
def bump (counts : List (String × Nat)) (r : String) : List (String × Nat) :=
  match counts with
  | [] => [(r, 1)]
  | (k, v) :: rest => if k = r then (k, v + 1) :: rest else (k, v) :: bump rest r

/-- Tally of a stream of role names into an insertion-ordered count
table. -/
def tally (roles : List String) : List (String × Nat) := roles.foldl bump []

/-- Role-occurrence accumulation `all_roles_count` over the filtered
results (app.py lines 648-651). -/
def all_roles_count (results : List Cand) : List (String × Nat) :=
  results.foldl (fun acc c => c.role_assignments.foldl (fun acc2 a => bump acc2 a.role) acc) []

/-- RoleSummaryEntry models one element of the `role_breakdown`
summary list (app.py lines 654-657). -/
structure RoleSummaryEntry where
  role : String
  count : Nat
  percentage : ℚ
deriving DecidableEq

/-- Round-half-to-even on a rational, the rounding mode of the Python
builtin `round`. -/
def round_half_even (x : ℚ) : ℤ :=
  let f := ⌊x⌋
  if x - f < 1/2 then f
  else if 1/2 < x - f then f + 1
  else if f % 2 = 0 then f else f + 1

/-- Model of Python `round(x, 1)`. -/
def py_round1 (x : ℚ) : ℚ := (round_half_even (x * 10) : ℚ) / 10

/-- Role summary construction (app.py lines 654-657): occurrence
counts sorted descending (Python sorted with key `-count`, stable),
each with `round(cnt / total_filtered * 100, 1)` guarded by
`total_filtered > 0`. -/
def role_summary (results : List Cand) : List RoleSummaryEntry :=
  let total := results.length
  ((all_roles_count results).mergeSort (fun a b => decide (b.2 ≤ a.2))).map
    (fun rc => { role := rc.1, count := rc.2,
                 percentage := if 0 < total then py_round1 ((rc.2 : ℚ) / (total : ℚ) * 100) else 0 })

/-- Average priority score of the filtered set (app.py line 675):
`round(sum(scores) / max(1, total_filtered), 1)`. -/
def avg_priority_score (results : List Cand) : ℚ :=
  py_round1 ((results.map (·.priority_score)).sum / (max 1 (results.length : ℚ)))

/-- Independent recount of how many role-assignment records across
`results` carry the role name `r`; used to state what the accumulated
dict counts must equal. -/
def role_instances (results : List Cand) (r : String) : Nat :=
  (results.map (fun c => c.role_assignments.countP (fun a => decide (a.role = r)))).sum

/-- Value stored for a key in an association-list count table, 0 when
absent (the `dict.get(role, 0)` default). -/
def lookup_count (counts : List (String × Nat)) (r : String) : Nat :=
  match counts with
  | [] => 0
  | (k, v) :: rest => if k = r then v else lookup_count rest r

/-- Sample enriched candidate with no role assignments, used by the
witness theorems. -/
def cand_a : Cand :=
  { koi_period := 10, confirmation_probability := 1/2, predicted_radius := 1,
    in_habitable_zone := false,
    priority_score := compute_priority_score 0 0 none none 0,
    role_assignments := [], num_roles := 0 }

/-- Second sample enriched candidate, used by the witness theorems. -/
def cand_b : Cand :=
  { koi_period := 20, confirmation_probability := 3/4, predicted_radius := 2,
    in_habitable_zone := true,
    priority_score := compute_priority_score 0 0 none none 0,
    role_assignments := [], num_roles := 0 }

/-- Sample enriched candidate carrying one role assignment, used by
the witness theorems. -/
def cand_c : Cand :=
  { koi_period := 5, confirmation_probability := 1/2, predicted_radius := 1,
    in_habitable_zone := false, priority_score := 50,
    role_assignments := [{ role := "Centroid Analyst", priority := "HIGH",
                           instrument := "Kepler TPF / Gaia DR3" }],
    num_roles := 1 }

-- ── Component bound lemmas ──────────────────────────────────────────

lemma conf_component_bounds (c : ℚ) : 5 ≤ conf_component c ∧ conf_component c ≤ 30 := by
  unfold conf_component
  split_ifs <;> norm_num

lemma hz_component_bounds (i : Option ℚ) : 0 ≤ hz_component i ∧ hz_component i ≤ 25 := by
  match i with
  | none => simp [hz_component]
  | some x =>
    simp only [hz_component]
    split_ifs <;> norm_num

lemma size_component_bounds (r : ℚ) : 0 ≤ size_component r ∧ size_component r ≤ 20 := by
  unfold size_component
  split_ifs <;> norm_num

lemma mult_component_bounds (c : Option ℚ) : 0 ≤ mult_component c ∧ mult_component c ≤ 15 := by
  match c with
  | none => simp [mult_component]
  | some x =>
    simp only [mult_component]
    split_ifs with h
    · have h1 : (0:ℚ) ≤ min 5 ((x - 1) * 2) := le_min (by norm_num) (by nlinarith)
      have h2 : min (5:ℚ) ((x - 1) * 2) ≤ 5 := min_le_left _ _
      constructor <;> linarith
    · norm_num

lemma snr_component_bounds (s : ℚ) : 0 ≤ snr_component s ∧ snr_component s ≤ 10 := by
  unfold snr_component
  split_ifs <;> norm_num

lemma score_ge_five (conf radius : ℚ) (insol count : Option ℚ) (snr : ℚ) :
    5 ≤ compute_priority_score conf radius insol count snr := by
  unfold compute_priority_score
  refine le_min (by norm_num) ?_
  have h1 := conf_component_bounds conf
  have h2 := hz_component_bounds insol
  have h3 := size_component_bounds radius
  have h4 := mult_component_bounds count
  have h5 := snr_component_bounds snr
  linarith [h1.1, h2.1, h3.1, h4.1, h5.1]

/-- C3: for every input the priority score lies in [0,100], and at the
five maximal-contribution inputs conf=0.75, insol=1.0, radius=1.0,
multiplicity=6, snr=25 the components are 30, 25, 20, 15, 10 and the
score is exactly 100. -/
theorem priority_score_bounded_and_maximal :
    (∀ (conf radius : ℚ) (insol count : Option ℚ) (snr : ℚ),
        0 ≤ compute_priority_score conf radius insol count snr ∧
        compute_priority_score conf radius insol count snr ≤ 100)
    ∧ conf_component 0.75 = 30 ∧ hz_component (some 1) = 25
    ∧ size_component 1 = 20 ∧ mult_component (some 6) = 15 ∧ snr_component 25 = 10
    ∧ compute_priority_score 0.75 1 (some 1) (some 6) 25 = 100 := by
  refine ⟨fun conf radius insol count snr => ⟨?_, min_le_left _ _⟩, ?_, ?_, ?_, ?_, ?_, ?_⟩
  · have := score_ge_five conf radius insol count snr
    linarith
  · norm_num [conf_component]
  · norm_num [hz_component]
  · norm_num [size_component]
  · norm_num [mult_component, min_def]
  · norm_num [snr_component]
  · norm_num [compute_priority_score, conf_component, hz_component, size_component,
      mult_component, snr_component, min_def]

/-- C10: the priority score is always at least 5 (the confidence
component contributes 5 even in its fallthrough branch), so a
minimum-score filter with threshold at most 5 keeps every candidate
whose score was produced by the scoring function. -/
theorem priority_score_at_least_five :
    (∀ (conf radius : ℚ) (insol count : Option ℚ) (snr : ℚ),
        5 ≤ compute_priority_score conf radius insol count snr)
    ∧ (∀ (results : List Cand) (ms : Int), ms ≤ 5 →
        (∀ r ∈ results, ∃ conf radius insol count snr,
            r.priority_score = compute_priority_score conf radius insol count snr) →
        min_score_filter results ms = results) := by
  refine ⟨score_ge_five, ?_⟩
  intro results ms hms hsc
  unfold min_score_filter
  split_ifs with h
  · apply List.filter_eq_self.mpr
    intro r hr
    obtain ⟨conf, radius, insol, count, snr, heq⟩ := hsc r hr
    have h5 : (5:ℚ) ≤ r.priority_score := heq ▸ score_ge_five conf radius insol count snr
    have hc : ((ms : ℚ)) ≤ 5 := by exact_mod_cast hms
    exact decide_eq_true (by linarith)
  · rfl

/-- Witness for the minimum-score filter theorem at threshold 5 on a
one-candidate list. -/
theorem priority_score_at_least_five_witness :
    5 ≤ compute_priority_score 0 0 none none 0 ∧ min_score_filter [cand_a] 5 = [cand_a] :=
  ⟨priority_score_at_least_five.1 0 0 none none 0,
   priority_score_at_least_five.2 [cand_a] 5 (by decide)
     (by
       intro r hr
       rw [List.mem_singleton] at hr
       subst hr
       exact ⟨0, 0, none, none, 0, rfl⟩)⟩

/-- C4: the habitable-zone flag is true exactly when insolation is
present, positive and in [0.25, 1.75]; the role-assignment flag and
the enriched-record flag agree everywhere; both boundary points are
inside and the nearby points outside; absent or non-positive
insolation gives false. -/
theorem habitable_zone_flag :
    (∀ insol : Option ℚ,
        (in_hz_of insol = true ↔
          ∃ x, insol = some x ∧ 0 < x ∧ (0.25:ℚ) ≤ x ∧ x ≤ (1.75:ℚ))
        ∧ discovery_in_hz insol = in_hz_of insol)
    ∧ in_hz_of (some 0.25) = true ∧ in_hz_of (some 1.75) = true
    ∧ in_hz_of (some 0.2499) = false ∧ in_hz_of (some 1.7501) = false
    ∧ in_hz_of none = false
    ∧ (∀ x : ℚ, x ≤ 0 → in_hz_of (some x) = false) := by
  refine ⟨?_, ?_, ?_, ?_, ?_, rfl, ?_⟩
  · intro insol
    constructor
    · match insol with
      | none => simp [in_hz_of]
      | some x =>
        simp only [in_hz_of]
        split_ifs with hx
        · constructor
          · intro h
            have := of_decide_eq_true h
            exact ⟨x, rfl, hx, by norm_num; linarith [this.1], by norm_num; linarith [this.2]⟩
          · rintro ⟨y, hy, _, h1, h2⟩
            obtain rfl : x = y := by injection hy
            exact decide_eq_true (by norm_num at h1 h2 ⊢; exact ⟨h1, h2⟩)
        · constructor
          · intro h; exact absurd h (by simp)
          · rintro ⟨y, hy, hpos, _, _⟩
            obtain rfl : x = y := by injection hy
            exact absurd hpos hx
    · match insol with
      | none => rfl
      | some x =>
        simp only [in_hz_of, discovery_in_hz]
        split_ifs with hx
        · rfl
        · apply decide_eq_false
          rintro ⟨h1, _⟩
          push_neg at hx
          linarith
  · norm_num [in_hz_of]
  · norm_num [in_hz_of]
  · norm_num [in_hz_of]
  · norm_num [in_hz_of]
  · intro x hx
    simp only [in_hz_of]
    rw [if_neg (by linarith)]

/-- Witness for the habitable-zone theorem: a non-positive insolation
value is flagged false while the boundary value 0.25 is flagged
true. -/
theorem habitable_zone_flag_witness :
    in_hz_of (some (-1)) = false ∧ in_hz_of (some 0.25) = true :=
  ⟨habitable_zone_flag.2.2.2.2.2.2 (-1) (by norm_num), habitable_zone_flag.2.1⟩

/-- C8: the size-class label is computed on the radius clamped to at
least 0 and agrees with the spec table of right-open bands; every
boundary value falls in the upper band and negative regressor output
classifies as the clamped value 0 does. -/
theorem size_class_of_clamped_radius :
    (∀ raw : ℚ, planet_class (clamp_radius raw) = sizeClass_spec (max 0 raw))
    ∧ planet_class (clamp_radius (-3)) = "Sub-Earth"
    ∧ planet_class (clamp_radius 1) = "Earth-size"
    ∧ planet_class (clamp_radius 2) = "Super-Earth"
    ∧ planet_class (clamp_radius 4) = "Neptune-size"
    ∧ planet_class (clamp_radius 8) = "Jupiter-size"
    ∧ planet_class (clamp_radius 15) = "Super-Jupiter" := by
  refine ⟨?_, ?_, ?_, ?_, ?_, ?_, ?_⟩
  · intro raw
    simp only [planet_class, sizeClass_spec, clamp_radius]
    rcases lt_or_le (max 0 raw) 1 with h1 | h1
    · rw [if_pos h1, if_pos h1]
    · rw [if_neg (not_lt.mpr h1), if_neg (not_lt.mpr h1)]
      rcases lt_or_le (max 0 raw) 2 with h2 | h2
      · rw [if_pos h2, if_pos ⟨h1, h2⟩]
      · have hn2 : ¬(1 ≤ max 0 raw ∧ max 0 raw < 2) := by rintro ⟨_, h⟩; linarith
        rw [if_neg (not_lt.mpr h2), if_neg hn2]
        rcases lt_or_le (max 0 raw) 4 with h4 | h4
        · rw [if_pos h4, if_pos ⟨h2, h4⟩]
        · have hn4 : ¬(2 ≤ max 0 raw ∧ max 0 raw < 4) := by rintro ⟨_, h⟩; linarith
          rw [if_neg (not_lt.mpr h4), if_neg hn4]
          rcases lt_or_le (max 0 raw) 8 with h8 | h8
          · rw [if_pos h8, if_pos ⟨h4, h8⟩]
          · have hn8 : ¬(4 ≤ max 0 raw ∧ max 0 raw < 8) := by rintro ⟨_, h⟩; linarith
            rw [if_neg (not_lt.mpr h8), if_neg hn8]
            rcases lt_or_le (max 0 raw) 15 with h15 | h15
            · rw [if_pos h15, if_pos ⟨h8, h15⟩]
            · have hn15 : ¬(8 ≤ max 0 raw ∧ max 0 raw < 15) := by rintro ⟨_, h⟩; linarith
              rw [if_neg (not_lt.mpr h15), if_neg hn15]
  all_goals norm_num [planet_class, clamp_radius, sizeClass_spec]

/-- C9: whenever the false-positive probability is the complement of
the confirmation probability, at least one rule of the Role Assignment
Engine fires, so the role list is never empty. -/
theorem roles_never_empty (conf fp radius : ℚ) (params : Params)
    (count insol : Option ℚ) (herr : Bool)
    (h0 : 0 ≤ conf) (h1 : conf ≤ 1) (hfp : fp = 1 - conf) :
    assign_roles conf fp radius params count insol herr ≠ [] := by
  apply List.ne_nil_of_length_pos
  by_cases hc : (13/20 : ℚ) ≤ conf
  · simp only [assign_roles, if_pos hc, List.length_append, List.length_cons,
      List.length_nil]
    omega
  · have hfp25 : (1/4 : ℚ) ≤ fp := by rw [hfp]; linarith
    simp only [assign_roles, if_neg hc, if_pos hfp25, List.length_append,
      List.length_cons, List.length_nil]
    omega

/-- Witness for the non-empty-roles theorem at conf = fp = 1/2. -/
theorem roles_never_empty_witness :
    assign_roles (1/2) (1/2) 1
      ({ koi_period := 10, koi_impact := 1/2, koi_duration := 3,
         koi_depth := 100, koi_model_snr := 12, koi_steff := 5700, koi_slogg := 22/5,
         koi_srad := 1, koi_smass := 1, koi_smet := 0 } : Params) none none true ≠ [] :=
  roles_never_empty (1/2) (1/2) 1 _ none none true (by norm_num) (by norm_num) (by norm_num)

/-- C1 counterexample: on the stated scenario (conf=0.70, fpProb=0.30,
radius=3.0, snr=8, depth=50, insol=1.0, multiplicity=1, teff=5000,
slogg=4.4, srad=1.0, smass=1.0, uncertainties present) the engine does
NOT produce a Radial Velocity Observer with priority MEDIUM: the
candidate is in the habitable zone with radius < 4, so that rule
yields priority HIGH. -/
theorem role_engine_scenario_counterexample :
    ({ role := "Radial Velocity Observer", priority := "MEDIUM",
       instrument := "HARPS-N" } : RoleAssignment)
      ∉ assign_roles 0.7 0.3 3
          { koi_period := 10, koi_impact := 1/2, koi_duration := 3,
            koi_depth := 50, koi_model_snr := 8, koi_steff := 5000,
            koi_slogg := 22/5, koi_srad := 1, koi_smass := 1, koi_smet := 0 }
          (some 1) (some 1) true := by
  norm_num [assign_roles, in_hz_of]
  decide

/-- C1 (amended): on the stated scenario the engine produces exactly
four assignments — Radial Velocity Observer (HIGH, HARPS-N), Transit
Photometrist (HIGH, CHEOPS), Centroid Analyst (MEDIUM), Statistical
Validator (MEDIUM) — and no Atmospheric Scientist, Stellar
Characterization or Dynamical Analyst assignment, for any values of
the features the scenario leaves unspecified. -/
theorem role_engine_scenario (dur per imp met : ℚ) :
    assign_roles 0.7 0.3 3
      { koi_period := per, koi_impact := imp, koi_duration := dur,
        koi_depth := 50, koi_model_snr := 8, koi_steff := 5000,
        koi_slogg := 22/5, koi_srad := 1, koi_smass := 1, koi_smet := met }
      (some 1) (some 1) true
    = [{ role := "Radial Velocity Observer", priority := "HIGH", instrument := "HARPS-N" },
       { role := "Transit Photometrist", priority := "HIGH", instrument := "CHEOPS" },
       { role := "Centroid Analyst", priority := "MEDIUM", instrument := "Kepler TPF / Gaia DR3" },
       { role := "Statistical Validator", priority := "MEDIUM", instrument := "VESPA / BLENDER" }] := by
  norm_num [assign_roles, in_hz_of]

-- ── C2: query-parameter error handling ──────────────────────────────

/-- C2 counterexample: an unparseable `page` value makes the whole
discovery request fail (the uncaught `ValueError` from `int("abc")`),
instead of the parameter being ignored or defaulted. -/
theorem invalid_page_aborts_request :
    parseDiscoveryParams
      { page := some "abc", per_page := none, role := none, priority := none,
        hz_only := none, sort := none, dir := none, min_score := none } = none := by
  rfl

/-- C2 (amended): a discovery request completes exactly when the
`page`, `per_page` and `min_score` parameters survive `int(...)`;
the string-shaped parameters (role, priority, hz_only, sort, dir) are
taken as-is or defaulted and can never abort the request, but an
unparseable integer parameter always does. -/
theorem query_param_error_handling (q : QueryArgs) :
    (parseDiscoveryParams q).isSome = true ↔
      ((int_arg q.page 1).isSome = true ∧ (int_arg q.per_page 20).isSome = true ∧
       (int_arg q.min_score 0).isSome = true) := by
  unfold parseDiscoveryParams
  rcases int_arg q.page 1 with _ | p <;>
    rcases int_arg q.per_page 20 with _ | pp <;>
    rcases int_arg q.min_score 0 with _ | ms <;> simp

/-- Witness for the query-parameter theorem at a request with
arbitrary strings in every string parameter and no integer
parameters. -/
theorem query_param_error_handling_witness :
    (parseDiscoveryParams
      { page := none, per_page := none, role := some "garbage", priority := some "??",
        hz_only := some "yes", sort := some "not-a-key", dir := some "sideways",
        min_score := none }).isSome = true :=
  (query_param_error_handling _).mpr ⟨rfl, rfl, rfl⟩

-- ── C6: sort stability ──────────────────────────────────────────────

lemma filter_mergeSort_tied {α : Type} (le : α → α → Bool)
    (htrans : ∀ a b c, le a b = true → le b c = true → le a c = true)
    (htotal : ∀ a b, (le a b || le b a) = true)
    (p : α → Bool) (hp : ∀ a b, p a = true → p b = true → le a b = true) (l : List α) :
    (l.mergeSort le).filter p = l.filter p := by
  have h1 : List.Sublist (l.filter p) l := List.filter_sublist l
  have pw : (l.filter p).Pairwise (fun a b => le a b = true) := by
    apply List.pairwise_of_forall_mem_list
    intro a ha b hb
    exact hp a b (List.of_mem_filter ha) (List.of_mem_filter hb)
  have h2 : List.Sublist (l.filter p) (l.mergeSort le) :=
    List.sublist_mergeSort htrans htotal pw h1
  have h3 : List.Sublist (l.filter p) ((l.mergeSort le).filter p) := by
    have h4 := h2.filter p
    rw [List.filter_filter] at h4
    simp only [Bool.and_self] at h4
    exact h4
  have h5 : List.Perm ((l.mergeSort le).filter p) (l.filter p) :=
    (List.mergeSort_perm l le).filter p
  exact (h3.eq_of_length h5.length_eq.symm).symm

/-- C6: for every sort key string and direction the discovery sort is
stable — the candidates carrying any fixed sort-key value appear in
the output in exactly their input order; an unrecognized sort key
falls back to the priority-score key, and an absent direction
parameter parses to the default "desc". -/
theorem discovery_sort_stable :
    (∀ (sort_by sort_dir : String) (results : List Cand) (v : ℚ),
        (sortResults results sort_by sort_dir).filter (fun c => decide (sort_key sort_by c = v))
          = results.filter (fun c => decide (sort_key sort_by c = v)))
    ∧ (∀ sort_by : String,
        sort_by ∉ (["priority_score", "conf_prob", "radius", "num_roles", "period"] : List String) →
        ∀ (results : List Cand) (sort_dir : String),
          sortResults results sort_by sort_dir = sortResults results "priority_score" sort_dir)
    ∧ (∀ q : QueryArgs, q.dir = none →
        ∀ d : DiscoveryParams, parseDiscoveryParams q = some d → d.sort_dir = "desc") := by
  refine ⟨?_, ?_, ?_⟩
  · intro sort_by sort_dir results v
    unfold sortResults
    split_ifs
    · apply filter_mergeSort_tied
      · intro a b c hab hbc
        have h1 := of_decide_eq_true hab
        have h2 := of_decide_eq_true hbc
        exact decide_eq_true (le_trans h2 h1)
      · intro a b
        rcases le_total (sort_key sort_by a) (sort_key sort_by b) with h | h <;>
          simp [decide_eq_true h]
      · intro a b ha hb
        have h1 := of_decide_eq_true ha
        have h2 := of_decide_eq_true hb
        exact decide_eq_true (by rw [h1, h2])
    · apply filter_mergeSort_tied
      · intro a b c hab hbc
        have h1 := of_decide_eq_true hab
        have h2 := of_decide_eq_true hbc
        exact decide_eq_true (le_trans h1 h2)
      · intro a b
        rcases le_total (sort_key sort_by a) (sort_key sort_by b) with h | h <;>
          simp [decide_eq_true h]
      · intro a b ha hb
        have h1 := of_decide_eq_true ha
        have h2 := of_decide_eq_true hb
        exact decide_eq_true (by rw [h1, h2])
  · intro sort_by hmem results sort_dir
    have hk : sort_key sort_by = sort_key "priority_score" := by
      funext c
      simp only [List.mem_cons, List.mem_singleton, not_or] at hmem
      obtain ⟨n1, n2, n3, n4, n5, _⟩ := hmem
      simp only [sort_key, if_neg n1, if_neg n2, if_neg n3, if_neg n4, if_neg n5]
      norm_num
    simp only [sortResults, hk]
  · intro q hdir d hd
    unfold parseDiscoveryParams at hd
    revert hd
    rcases int_arg q.page 1 with _ | p <;>
      rcases int_arg q.per_page 20 with _ | pp <;>
      rcases int_arg q.min_score 0 with _ | ms <;> intro hd <;> simp at hd
    rw [← hd]
    simp [hdir]

/-- Witness for the sort theorem: an unrecognized key behaves as the
priority-score key on a concrete two-candidate list, and the
all-defaults request parses with direction "desc". -/
theorem discovery_sort_stable_witness :
    sortResults [cand_a, cand_b] "garbage" "desc"
      = sortResults [cand_a, cand_b] "priority_score" "desc"
    ∧ ({ page := 1, per_page := 20, role_filter := "", priority_filter := "",
         hz_only := false, sort_by := "priority_score", sort_dir := "desc",
         min_score := 0 } : DiscoveryParams).sort_dir = "desc" :=
  ⟨discovery_sort_stable.2.1 "garbage" (by decide) [cand_a, cand_b] "desc",
   discovery_sort_stable.2.2
     { page := none, per_page := none, role := none, priority := none,
       hz_only := none, sort := none, dir := none, min_score := none } rfl _ rfl⟩

-- ── C5: pagination ──────────────────────────────────────────────────

lemma pyIndex_natCast (len s : Nat) : pyIndex len (s : Int) = min s len := by
  unfold pyIndex
  rw [if_neg (by omega)]
  congr 1

lemma pySlice_natCast {α : Type} (l : List α) (s t : Nat) :
    pySlice l (s : Int) (t : Int) = (l.drop s).take (t - s) := by
  unfold pySlice
  rw [pyIndex_natCast, pyIndex_natCast]
  rcases le_or_lt s l.length with hs | hs
  · rw [Nat.min_eq_left hs]
    rcases le_or_lt t l.length with ht | ht
    · rw [Nat.min_eq_left ht]
    · rw [Nat.min_eq_right (le_of_lt ht)]
      rw [List.take_of_length_le (by simp [List.length_drop]),
        List.take_of_length_le (by simp [List.length_drop]; omega)]
  · rw [Nat.min_eq_right (le_of_lt hs)]
    rw [List.drop_of_length_le (le_refl _), List.drop_of_length_le (by omega)]
    simp

lemma chunks_flatten {α : Type} (pn : Nat) (hp : 0 < pn) :
    ∀ (fuel : Nat) (l : List α), l.length ≤ fuel →
      ((List.range ((l.length + pn - 1) / pn)).map
        (fun i => (l.drop (i * pn)).take pn)).flatten = l := by
  intro fuel
  induction fuel with
  | zero =>
    intro l hl
    have h0 : l = [] := List.eq_nil_of_length_eq_zero (by omega)
    subst h0
    simp
  | succ n ih =>
    intro l hl
    rcases eq_or_ne l [] with rfl | hne
    · simp
    · have hlen : 0 < l.length := List.length_pos.mpr hne
      have hpages : (l.length + pn - 1) / pn = ((l.drop pn).length + pn - 1) / pn + 1 := by
        rw [List.length_drop]
        rcases le_or_lt l.length pn with h | h
        · have e1 : l.length - pn = 0 := by omega
          rw [e1]
          have e2 : (l.length + pn - 1) / pn = 1 := by
            have e0 : l.length + pn - 1 = (l.length - 1) + 1 * pn := by omega
            rw [e0, Nat.add_mul_div_right _ _ hp, Nat.div_eq_of_lt (by omega)]
          have e3 : (0 + pn - 1) / pn = 0 := Nat.div_eq_of_lt (by omega)
          rw [e2, e3]
        · have e1 : l.length + pn - 1 = ((l.length - pn) + pn - 1) + pn := by omega
          rw [e1, Nat.add_div_right _ hp]
      rw [hpages, List.range_succ_eq_map, List.map_cons, List.flatten_cons, List.map_map]
      have hcomp : ((fun i => (l.drop (i * pn)).take pn) ∘ Nat.succ)
          = fun i => (((l.drop pn).drop (i * pn)).take pn) := by
        funext i
        simp only [Function.comp, List.drop_drop]
        congr 2
        rw [Nat.succ_mul]
        omega
      rw [hcomp, ih (l.drop pn) (by rw [List.length_drop]; omega)]
      simp [List.take_append_drop]

lemma paginate_pos_page {α : Type} (l : List α) (pn i : Nat) :
    paginate l ((i : Int) + 1) (pn : Int) = (l.drop (i * pn)).take pn := by
  unfold paginate
  have h1 : ((i : Int) + 1 - 1) * (pn : Int) = ((i * pn : Nat) : Int) := by push_cast; ring
  have h2 : ((i : Int) + 1 - 1) * (pn : Int) + (pn : Int) = ((i * pn + pn : Nat) : Int) := by
    push_cast; ring
  rw [h2, h1, pySlice_natCast]
  congr 1
  omega

/-- C5 counterexample: the out-of-range page number -1 at page size 1
on a two-element list yields a NON-empty page (Python slicing
interprets the negative start index from the end of the list), contrary
to the claim that every out-of-range page is empty. -/
theorem negative_page_not_empty :
    paginate [cand_a, cand_b] (-1) 1 ≠ [] := by
  have h : paginate [cand_a, cand_b] (-1) 1 = [cand_a] := by
    show pySlice [cand_a, cand_b] ((-1 - 1) * 1) ((-1 - 1) * 1 + 1) = [cand_a]
    norm_num [pySlice, pyIndex]
  rw [h]
  simp

/-- C5 (amended): for every positive page size, concatenating pages
1..pages in order reproduces the filtered, sorted sequence exactly
(no gaps or duplicates); every page number beyond `pages`, and page 0,
yields an empty page rather than an error; negative page numbers,
however, follow Python negative-index slicing and are not always
empty. -/
theorem pagination_partition (l : List Cand) (p : Int) (hp : 0 < p) :
    (((List.range (pages_count l.length p).toNat).map
        (fun i : Nat => paginate l ((i : Int) + 1) p)).flatten = l)
    ∧ (∀ page : Int, pages_count l.length p < page → paginate l page p = [])
    ∧ paginate l 0 p = [] := by
  have hpn : p = ((p.toNat : Nat) : Int) := (Int.toNat_of_nonneg (le_of_lt hp)).symm
  have hpn0 : 0 < p.toNat := by omega
  have hpc : (pages_count l.length p).toNat = (l.length + p.toNat - 1) / p.toNat := by
    unfold pages_count
    rw [Int.fdiv_eq_ediv _ (le_of_lt hp)]
    have e1 : ((l.length : Int) + p - 1) = ((l.length + p.toNat - 1 : Nat) : Int) := by
      omega
    rw [e1, hpn, ← Int.ofNat_ediv]
    exact Int.toNat_ofNat _
  refine ⟨?_, ?_, ?_⟩
  · have hpag : (fun i : Nat => paginate l ((i : Int) + 1) p)
        = fun i : Nat => (l.drop (i * p.toNat)).take p.toNat := by
      funext i
      rw [hpn]
      exact paginate_pos_page l p.toNat i
    rw [hpc, hpag]
    exact chunks_flatten p.toNat hpn0 l.length l (le_refl _)
  · intro page hpage
    have hbig : (l.length : Int) ≤ (page - 1) * p := by
      have h1 : (l.length : Int) ≤ pages_count l.length p * p := by
        unfold pages_count
        rw [Int.fdiv_eq_ediv _ (le_of_lt hp), mul_comm]
        have hdm := Int.ediv_add_emod ((l.length : Int) + p - 1) p
        have hml := Int.emod_lt_of_pos ((l.length : Int) + p - 1) hp
        have hmn := Int.emod_nonneg ((l.length : Int) + p - 1) (ne_of_gt hp)
        linarith
      have h2 : pages_count l.length p ≤ page - 1 := by
        have := Int.lt_iff_add_one_le.mp hpage
        linarith
      calc (l.length : Int) ≤ pages_count l.length p * p := h1
        _ ≤ (page - 1) * p := mul_le_mul_of_nonneg_right h2 (le_of_lt hp)
    unfold paginate pySlice
    have hs : pyIndex l.length ((page - 1) * p) = l.length := by
      unfold pyIndex
      rw [if_neg (by omega)]
      exact Nat.min_eq_right (by omega)
    rw [hs, List.drop_length, List.take_nil]
  · unfold paginate pySlice
    have ht : pyIndex l.length ((0 - 1) * p + p) = 0 := by
      have e : ((0 : Int) - 1) * p + p = 0 := by ring
      rw [e]
      unfold pyIndex
      rw [if_neg (by omega)]
      simp
    rw [ht]
    simp

/-- Witness for the pagination theorem: a two-element list at page
size 1 splits into its two pages and page 5 is empty. -/
theorem pagination_partition_witness :
    (((List.range (pages_count (List.length [cand_a, cand_b]) 1).toNat).map
        (fun i : Nat => paginate [cand_a, cand_b] ((i : Int) + 1) 1)).flatten = [cand_a, cand_b])
    ∧ paginate [cand_a, cand_b] 5 1 = [] :=
  ⟨(pagination_partition [cand_a, cand_b] 1 (by decide)).1,
   (pagination_partition [cand_a, cand_b] 1 (by decide)).2.1 5 (by decide)⟩

-- ── C7: summary aggregation ─────────────────────────────────────────

lemma bump_lookup (counts : List (String × Nat)) (r r' : String) :
    lookup_count (bump counts r) r' =
      lookup_count counts r' + (if r = r' then 1 else 0) := by
  induction counts with
  | nil => simp [bump, lookup_count]
  | cons kv rest ih =>
    obtain ⟨k, v⟩ := kv
    by_cases hk : k = r
    · subst hk
      simp only [bump, if_pos rfl, lookup_count]
      by_cases hk' : k = r' <;> simp [hk']
    · simp only [bump, if_neg hk, lookup_count]
      by_cases hk' : k = r'
      · subst hk'
        have : ¬(r = k) := fun h => hk h.symm
        simp [this]
      · simp [hk', ih]

lemma foldl_bump_lookup (roles : List String) (init : List (String × Nat)) (r : String) :
    lookup_count (roles.foldl bump init) r =
      lookup_count init r + roles.countP (fun s => decide (s = r)) := by
  induction roles generalizing init with
  | nil => simp
  | cons x xs ih =>
    rw [List.foldl_cons, ih, bump_lookup, List.countP_cons]
    by_cases hx : x = r <;> simp [hx] <;> omega

lemma bump_keys (counts : List (String × Nat)) (r : String) :
    (bump counts r).map Prod.fst =
      if r ∈ counts.map Prod.fst then counts.map Prod.fst
      else counts.map Prod.fst ++ [r] := by
  induction counts with
  | nil => simp [bump]
  | cons kv rest ih =>
    obtain ⟨k, v⟩ := kv
    by_cases hk : k = r
    · subst hk
      simp [bump]
    · have hk' : ¬(r = k) := fun h => hk h.symm
      simp only [bump, if_neg hk, List.map_cons, ih, List.mem_cons]
      by_cases hmem : r ∈ rest.map Prod.fst <;> simp [hmem, hk']

lemma bump_keys_nodup (counts : List (String × Nat)) (r : String)
    (h : (counts.map Prod.fst).Nodup) : ((bump counts r).map Prod.fst).Nodup := by
  rw [bump_keys]
  split_ifs with hmem
  · exact h
  · refine List.Nodup.append h (List.nodup_singleton r) ?_
    intro a ha hb
    rw [List.mem_singleton] at hb
    subst hb
    exact hmem ha

lemma foldl_bump_nodup (roles : List String) (init : List (String × Nat))
    (h : (init.map Prod.fst).Nodup) : ((roles.foldl bump init).map Prod.fst).Nodup := by
  induction roles generalizing init with
  | nil => exact h
  | cons x xs ih => exact ih (bump init x) (bump_keys_nodup init x h)

lemma mem_lookup_eq (counts : List (String × Nat))
    (hnd : (counts.map Prod.fst).Nodup) (e : String × Nat) (he : e ∈ counts) :
    e.2 = lookup_count counts e.1 := by
  induction counts with
  | nil => cases he
  | cons kv rest ih =>
    obtain ⟨k, v⟩ := kv
    simp only [List.map_cons, List.nodup_cons] at hnd
    rcases List.mem_cons.mp he with rfl | hrest
    · simp [lookup_count]
    · have hk : ¬(k = e.1) := by
        intro h
        exact hnd.1 (h ▸ List.mem_map_of_mem Prod.fst hrest)
      simp only [lookup_count, if_neg hk]
      exact ih hnd.2 hrest

lemma tally_entry_count (roles : List String) (e : String × Nat) (he : e ∈ tally roles) :
    e.2 = roles.countP (fun s => decide (s = e.1)) := by
  have hnd : ((tally roles).map Prod.fst).Nodup :=
    foldl_bump_nodup roles [] (by simp)
  have h1 := mem_lookup_eq (tally roles) hnd e he
  rw [h1]
  unfold tally
  rw [foldl_bump_lookup]
  simp [lookup_count]

lemma all_roles_count_eq_tally (results : List Cand) :
    all_roles_count results
      = tally ((results.map (fun c => c.role_assignments.map (fun a => a.role))).flatten) := by
  unfold all_roles_count tally
  rw [List.foldl_flatten, List.foldl_map]
  congr 1
  funext acc c
  rw [List.foldl_map]

lemma flatten_countP_role (results : List Cand) (r : String) :
    ((results.map (fun c => c.role_assignments.map (fun a => a.role))).flatten).countP
        (fun s => decide (s = r)) = role_instances results r := by
  unfold role_instances
  induction results with
  | nil => simp
  | cons c cs ih =>
    simp only [List.map_cons, List.flatten_cons, List.countP_append, List.map_cons,
      List.sum_cons, ih, List.countP_map]
    congr 1

/-- C7: every entry of the role-breakdown summary reports the exact
number of role instances across the filtered candidates, with its
percentage computed as round(count / filteredTotal * 100, 1) over the
candidate count as denominator; an empty filtered set produces an
empty breakdown and average priority score 0 instead of a division
error. -/
theorem role_summary_percentages :
    (∀ (results : List Cand), ∀ e ∈ role_summary results,
        e.count = role_instances results e.role ∧
        e.percentage
          = py_round1 ((role_instances results e.role : ℚ) / (results.length : ℚ) * 100))
    ∧ role_summary [] = [] ∧ avg_priority_score [] = 0 := by
  refine ⟨?_, by simp [role_summary, all_roles_count], ?_⟩
  · intro results e he
    match results with
    | [] => simp [role_summary, all_roles_count] at he
    | c :: cs =>
      simp only [role_summary, List.mem_map] at he
      obtain ⟨rc, hrc, hrce⟩ := he
      rw [List.mem_mergeSort, all_roles_count_eq_tally] at hrc
      have hcount := tally_entry_count _ rc hrc
      rw [flatten_countP_role] at hcount
      have hrole : e.role = rc.1 := by rw [← hrce]
      have hcnt : e.count = rc.2 := by rw [← hrce]
      have hpos : 0 < (c :: cs).length := by simp
      constructor
      · rw [hcnt, hrole, hcount]
      · have hperc : e.percentage
            = if 0 < (c :: cs).length then
                py_round1 ((rc.2 : ℚ) / ((c :: cs).length : ℚ) * 100) else 0 := by
          rw [← hrce]
        rw [hperc, if_pos hpos, hrole, ← hcount]
  · have h1 : avg_priority_score [] = py_round1 0 := by
      simp [avg_priority_score]
    rw [h1]
    simp [py_round1, round_half_even]

/-- Witness for the role-summary theorem on a one-candidate list with
a single role assignment. -/
theorem role_summary_percentages_witness :
    ({ role := "Centroid Analyst", count := 1,
       percentage := py_round1 ((1 : ℚ) / 1 * 100) } : RoleSummaryEntry).count
        = role_instances [cand_c] "Centroid Analyst"
    ∧ ({ role := "Centroid Analyst", count := 1,
         percentage := py_round1 ((1 : ℚ) / 1 * 100) } : RoleSummaryEntry).percentage
        = py_round1 ((role_instances [cand_c] "Centroid Analyst" : ℚ)
            / ((List.length [cand_c] : Nat) : ℚ) * 100) :=
  role_summary_percentages.1 [cand_c] _
    (by simp [role_summary, all_roles_count, cand_c, bump])

end Stellar
